import Mathlib

/-!
Verification of the collective-boredom-dial server (src/server/index.js).

The JavaScript server keeps a registry `rooms : Map<string, Room>` where a
room holds a `Map<string, Participant>` of users, a creation timestamp, a
display name and a global flag.  JS `Map`s are modelled as association lists
with unique keys (insertion order preserved, as `Map` iteration order is
insertion order); JS numbers are modelled as rationals; `null`/absent values
as `Option`.
-/

namespace Server

/-- Lookup in an association list, mirroring `Map.prototype.get`. -/
def lookupA {α : Type} : List (String × α) → String → Option α
  | [], _ => none
  | (k, v) :: rest, key => if k = key then some v else lookupA rest key

/-- Membership test, mirroring `Map.prototype.has`. -/
def hasA {α : Type} (m : List (String × α)) (k : String) : Bool :=
  (lookupA m k).isSome

/-- Insert-or-replace, mirroring `Map.prototype.set` on a unique-key map:
the first entry with the key keeps its position and gets the new value, a
fresh key is appended at the end. -/
def setA {α : Type} : List (String × α) → String → α → List (String × α)
  | [], k, v => [(k, v)]
  | (k1, v1) :: rest, k, v =>
    if k1 = k then (k, v) :: rest else (k1, v1) :: setA rest k v

/-- JavaScript `Math.round` on a (finite) number: round half toward
positive infinity, i.e. `⌊x + 1/2⌋`. -/
def jsRound (x : ℚ) : ℤ := ⌊x + 1 / 2⌋

/-- A participant entry in a room's user table (`room.users.set(id, {...})`
in the source): current boredom value, whether the `ws` field is a live
connection (truthy) or `null`, the bot flag, and the optional name. -/
structure Participant where
  boredom : ℚ
  hasWs : Bool
  isBot : Bool
  name : Option String
  deriving DecidableEq, Repr

/-- A room: participant table, creation time (ms since epoch, the
`createdAt` date), display name, and the global flag. -/
structure Room where
  users : List (String × Participant)
  createdAt : ℤ
  name : String
  isGlobal : Bool
  deriving DecidableEq, Repr

/-- The room registry `rooms`. -/
abbrev Registry := List (String × Room)

/-- The identifier of the permanent global room. -/
def GLOBAL_ROOM_ID : String := "global"

/-- One entry of the `individuals` array produced by `getRoomStats`. -/
structure Individual where
  id : String
  boredom : ℤ
  isBot : Bool
  name : Option String
  deriving DecidableEq, Repr

/-- The value returned by `getRoomStats` for an existing room. -/
structure Stats where
  average : ℤ
  count : ℕ
  individuals : List Individual
  roomName : String
  roomId : String
  deriving DecidableEq, Repr

/-- JS `u.name || null`: an empty-string name is coerced to `null`. -/
def nameOrNull (n : Option String) : Option String :=
  match n with
  | some s => if s = "" then none else some s
  | none => none

/-- Embedding of `getRoomStats` (src/server/index.js lines 66-91): `count`
is the number of entries, `average` is `Math.round` of
`values.reduce((a,b)=>a+b,0)/count` when `count > 0` and `50` otherwise,
and `individuals` reports each entry with its value rounded. -/
def getRoomStats (rooms : Registry) (roomId : String) : Option Stats :=
  match lookupA rooms roomId with
  | none => none
  | some room =>
    let values := room.users.map (fun e => e.2.boredom)
    let count := values.length
    let average : ℤ :=
      if count > 0 then jsRound (values.foldl (fun a b => a + b) 0 / (count : ℚ))
      else 50
    let individuals := room.users.map (fun e =>
      { id := e.1, boredom := jsRound e.2.boredom, isBot := e.2.isBot,
        name := nameOrNull e.2.name : Individual })
    some { average := average, count := count, individuals := individuals,
           roomName := room.name, roomId := roomId }

/-- One simulated-user profile from the `bots` array (lines 22-27):
`boredom` is the drift target, `volatility` scales the random perturbation,
`speed` is the tick interval in ms. -/
structure BotProfile where
  id : String
  name : String
  boredom : ℚ
  volatility : ℚ
  speed : ℕ
  deriving DecidableEq, Repr

/-- The four bot profiles of the source. -/
def bots : List BotProfile :=
  [ { id := "bot-restless", name := "Restless Rita", boredom := 65, volatility := 15, speed := 3000 },
    { id := "bot-chill", name := "Chill Charlie", boredom := 25, volatility := 8, speed := 7000 },
    { id := "bot-moody", name := "Moody Morgan", boredom := 50, volatility := 25, speed := 4000 },
    { id := "bot-sleepy", name := "Sleepy Sam", boredom := 80, volatility := 10, speed := 10000 } ]

/-- The global room as seeded at startup (lines 30-44): each bot profile
becomes a participant with `ws: null`, at its profile's initial boredom.
The startup timestamp is a parameter. -/
def initialGlobalRoom (t : ℤ) : Room :=
  { users := bots.map (fun b =>
      (b.id, { boredom := b.boredom, hasWs := false, isBot := true, name := some b.name })),
    createdAt := t, name := "Global Boredom", isGlobal := true }

/-- The registry right after startup (line 46): only the global room. -/
def initialRooms (t : ℤ) : Registry := [(GLOBAL_ROOM_ID, initialGlobalRoom t)]

/-! ### Connection message handling (src/server/index.js lines 253-276) -/

/-- An inbound message after `JSON.parse` succeeded and the type/field
checks of the handler ran: `update` with a numeric `boredom` field,
`setName` with a string `name` field, or anything else (which includes an
`update` whose `boredom` is not a number). -/
inductive ClientMsg where
  | update (boredom : ℚ)
  | setName (name : String)
  | other
  deriving DecidableEq, Repr

/-- Embedding of the per-connection message handler's effect on the room
captured by the connection: the `update` branch stores
`Math.max(0, Math.min(100, Math.round(message.boredom)))` if the user is
still in the table, the `setName` branch stores the name truncated to 20
characters if non-empty, everything else is ignored. -/
def handleMessage (room : Room) (userId : String) (msg : ClientMsg) : Room :=
  match msg with
  | ClientMsg.update b =>
    (match lookupA room.users userId with
     | some u =>
       let u2 : Participant := { u with boredom := ((max 0 (min 100 (jsRound b)) : ℤ) : ℚ) }
       { room with users := setA room.users userId u2 }
     | none => room)
  | ClientMsg.setName n =>
    if n = "" then room
    else
      match lookupA room.users userId with
      | some u =>
        { room with users := setA room.users userId { u with name := some (n.take 20) } }
      | none => room
  | ClientMsg.other => room

/-! ### Room resolution on connection (lines 202-222) -/

/-- A character of the `[A-Z0-9]` class of the room-code pattern. -/
def isCodeChar (c : Char) : Bool :=
  decide (('A' ≤ c ∧ c ≤ 'Z') ∨ ('0' ≤ c ∧ c ≤ '9'))

/-- The test `/^[A-Z0-9]+$/.test(s)`: non-empty and all characters in the
class. -/
def matchesUpperAlnum (s : String) : Bool :=
  !s.data.isEmpty && s.data.all isCodeChar

/-- The join-time validity check `roomId.length === 6 && /^[A-Z0-9]+$/.test(roomId)`. -/
def looksLikeRoomCode (s : String) : Bool :=
  s.length == 6 && matchesUpperAlnum s

/-- The room created on the fly for a well-formed unknown code. -/
def freshJoinRoom (id : String) (now : ℤ) : Room :=
  { users := [], createdAt := now, name := "Room " ++ id, isGlobal := false }

/-- Embedding of the connection handler's room resolution: the requested
identifier (the `room` query parameter, `none` when absent) defaults to the
global identifier when absent or empty (JS `||`); a known identifier is
used as is; an unknown well-formed 6-character code creates a room; any
other unknown identifier falls back to the global room.  Returns the
registry after resolution and the resolved identifier. -/
def resolveRoomForJoin (rooms : Registry) (requested : Option String) (now : ℤ) :
    Registry × String :=
  let roomId :=
    match requested with
    | some s => if s = "" then GLOBAL_ROOM_ID else s
    | none => GLOBAL_ROOM_ID
  if hasA rooms roomId then (rooms, roomId)
  else if looksLikeRoomCode roomId then
    (setA rooms roomId (freshJoinRoom roomId now), roomId)
  else (rooms, GLOBAL_ROOM_ID)

/-! ### Room expiry sweep (lines 112-126) -/

/-- The participants of a room backed by a live connection
(`Array.from(room.users.values()).filter(u => u.ws)`). -/
def liveUsers (room : Room) : List Participant :=
  (room.users.map (fun e => e.2)).filter (fun u => u.hasWs)

/-- Whether one sweep iteration keeps a registry entry: the global room is
always kept, any other room is kept unless it has no live users and is
older than one hour (3600000 ms). -/
def keepRoom (now : ℤ) (e : String × Room) : Bool :=
  e.1 == GLOBAL_ROOM_ID ||
    !((liveUsers e.2).length == 0 && decide (now - e.2.createdAt > 3600000))

/-- Embedding of one run of the cleanup interval: every entry failing
`keepRoom` is deleted. -/
def sweepRooms (rooms : Registry) (now : ℤ) : Registry :=
  rooms.filter (keepRoom now)

/-! ### Bot simulation tick (lines 49-63) -/

/-- Embedding of one tick of a bot's interval, with `r` the value drawn by
`Math.random()`: if the global room and the bot's entry exist, the entry's
boredom becomes `Math.max(0, Math.min(100, current + drift + randomChange))`
with `drift = (target - current) * 0.1` and
`randomChange = (r - 0.5) * volatility`; otherwise nothing changes. -/
def botTick (rooms : Registry) (bot : BotProfile) (r : ℚ) : Registry :=
  match lookupA rooms GLOBAL_ROOM_ID with
  | none => rooms
  | some room =>
    match lookupA room.users bot.id with
    | none => rooms
    | some user =>
      let drift := (bot.boredom - user.boredom) * (1 / 10)
      let randomChange := (r - 1 / 2) * bot.volatility
      let newBoredom := max 0 (min 100 (user.boredom + drift + randomChange))
      setA rooms GLOBAL_ROOM_ID
        { room with users := setA room.users bot.id { user with boredom := newBoredom } }


/-! ### Administrative HTTP handlers (lines 141-177) -/

/-- The JSON body of the `/health` response. -/
structure HealthBody where
  status : String
  rooms : ℕ
  globalUsers : ℕ
  deriving DecidableEq, Repr

/-- Embedding of the `GET /health` handler: status code 200 with status
string "ok", the registry's size, and `stats?.count || 0` for the global
room (JS `||`: a zero count also yields 0). -/
def healthHandler (rooms : Registry) : ℕ × HealthBody :=
  let stats := getRoomStats rooms GLOBAL_ROOM_ID
  let globalUsers : ℕ :=
    match stats with
    | some s => if s.count = 0 then 0 else s.count
    | none => 0
  (200, { status := "ok", rooms := rooms.length, globalUsers := globalUsers })

/-- Outcome of `JSON.parse(...)` on the request body of `POST /api/rooms`:
either an object whose `name` field is the given optional string, or a
parse error. -/
inductive BodyParse where
  | obj (name : Option String)
  | fail
  deriving DecidableEq, Repr

/-- The JSON body of a `POST /api/rooms` response. -/
inductive ApiResponse where
  | created (roomId : String) (roomName : String)
  | invalid (error : String)
  deriving DecidableEq, Repr

/-- Embedding of the `POST /api/rooms` handler.  `bodyEmpty` records
whether the accumulated body string is empty, in which case
`JSON.parse(body || '\x7b\x7d')` parses the empty object instead
(`bodyParse` is the parse outcome of a non-empty body).  `code` is the
value produced by `generateRoomCode()` for this request.  On success the
room name is `data.name || "Room " + code` (a blank or absent name falls
back to the default), the room is stored with an empty user table, and 200
is returned with the identifier and name; on parse failure 400 is returned
and the registry is untouched. -/
def handleCreateRoom (rooms : Registry) (bodyEmpty : Bool) (bodyParse : BodyParse)
    (code : String) (now : ℤ) : Registry × ℕ × ApiResponse :=
  let parsed := if bodyEmpty then BodyParse.obj none else bodyParse
  match parsed with
  | BodyParse.obj nm =>
    let roomName :=
      match nm with
      | some s => if s = "" then "Room " ++ code else s
      | none => "Room " ++ code
    (setA rooms code { users := [], createdAt := now, name := roomName, isGlobal := false },
     200, ApiResponse.created code roomName)
  | BodyParse.fail => (rooms, 400, ApiResponse.invalid "Invalid request")

/-! ### Association-list lemmas -/

theorem lookupA_setA_self {α : Type} (m : List (String × α)) (k : String) (v : α) :
    lookupA (setA m k v) k = some v := by
  induction m with
  | nil => simp [setA, lookupA]
  | cons hd tl ih =>
    obtain ⟨k1, v1⟩ := hd
    by_cases hk : k1 = k
    · simp [setA, hk, lookupA]
    · simp [setA, hk, lookupA, ih]

theorem lookupA_setA_ne {α : Type} (m : List (String × α)) (k k2 : String) (v : α)
    (h : k2 ≠ k) : lookupA (setA m k v) k2 = lookupA m k2 := by
  induction m with
  | nil => simp [setA, lookupA, Ne.symm h]
  | cons hd tl ih =>
    obtain ⟨k1, v1⟩ := hd
    by_cases hk : k1 = k
    · subst hk
      simp [setA, lookupA, Ne.symm h]
    · simp [setA, hk, lookupA, ih]

theorem lookupA_none_of_hasA_false {α : Type} (m : List (String × α)) (k : String)
    (h : hasA m k = false) : lookupA m k = none := by
  unfold hasA at h
  cases hl : lookupA m k with
  | none => rfl
  | some v2 => rw [hl] at h; simp at h

theorem length_setA_of_hasA {α : Type} (m : List (String × α)) (k : String) (v : α)
    (h : hasA m k = true) : (setA m k v).length = m.length := by
  induction m with
  | nil => simp [hasA, lookupA] at h
  | cons hd tl ih =>
    obtain ⟨k1, v1⟩ := hd
    by_cases hk : k1 = k
    · simp [setA, hk]
    · have h2 : hasA tl k = true := by simpa [hasA, lookupA, hk] using h
      simp [setA, hk, ih h2]

theorem length_setA_of_fresh {α : Type} (m : List (String × α)) (k : String) (v : α)
    (h : hasA m k = false) : (setA m k v).length = m.length + 1 := by
  induction m with
  | nil => simp [setA]
  | cons hd tl ih =>
    obtain ⟨k1, v1⟩ := hd
    by_cases hk : k1 = k
    · simp [hasA, lookupA, hk] at h
    · have h2 : hasA tl k = false := by simpa [hasA, lookupA, hk] using h
      simp [setA, hk, ih h2]

theorem foldl_add_eq_sum (l : List ℚ) (a : ℚ) :
    l.foldl (fun x y => x + y) a = a + l.sum := by
  induction l generalizing a with
  | nil => simp
  | cons hd tl ih => simp [List.foldl, ih, List.sum_cons]; ring

/-! ### Claims C1 and C2: getRoomStats on non-empty and empty tables -/

/-- C1: for a room with a non-empty participant table, `getRoomStats`
returns a result whose `count` is the number of participant entries, whose
`average` is the round of the arithmetic mean of all stored values, and
whose `individuals` list reports, entry by entry, each participant's
identifier with its stored value rounded. -/
theorem getRoomStats_nonempty (R : Registry) (roomId : String) (room : Room)
    (hr : lookupA R roomId = some room) (hne : room.users ≠ []) :
    ∃ s, getRoomStats R roomId = some s ∧
      s.count = room.users.length ∧
      s.average = jsRound ((room.users.map (fun e => e.2.boredom)).sum / (room.users.length : ℚ)) ∧
      s.individuals.length = room.users.length ∧
      ∀ i, i < room.users.length →
        ∃ e ind, room.users[i]? = some e ∧ s.individuals[i]? = some ind ∧
          ind.id = e.1 ∧ ind.boredom = jsRound e.2.boredom ∧ ind.isBot = e.2.isBot := by
  have hpos : 0 < room.users.length := List.length_pos.mpr hne
  simp only [getRoomStats, hr]
  refine ⟨_, rfl, ?_, ?_, ?_, ?_⟩
  · simp
  · have hlen : (room.users.map (fun e => e.2.boredom)).length = room.users.length := by
      simp
    simp only [hlen, hpos, if_pos, foldl_add_eq_sum, zero_add]
  · simp
  · intro i hi
    refine ⟨room.users[i],
      { id := room.users[i].1, boredom := jsRound room.users[i].2.boredom,
        isBot := room.users[i].2.isBot, name := nameOrNull room.users[i].2.name },
      List.getElem?_eq_getElem hi, ?_, rfl, rfl, rfl⟩
    simp [List.getElem?_map, List.getElem?_eq_getElem hi]

/-- C2: for an existing room with an empty participant table, `getRoomStats`
returns (rather than failing) a result with `count = 0` and `average = 50`. -/
theorem getRoomStats_empty (R : Registry) (roomId : String) (room : Room)
    (hr : lookupA R roomId = some room) (he : room.users = []) :
    getRoomStats R roomId =
      some { average := 50, count := 0, individuals := [],
             roomName := room.name, roomId := roomId } := by
  unfold getRoomStats
  rw [hr]
  simp [he]

/-- Witness for C1 at the startup registry: the global room holds the four
bots, whose mean boredom `(65+25+50+80)/4 = 55` rounds to `55`. -/
theorem getRoomStats_nonempty_witness :
    ∃ s, getRoomStats (initialRooms 0) "global" = some s ∧
      s.count = (initialGlobalRoom 0).users.length ∧
      s.average = jsRound (((initialGlobalRoom 0).users.map (fun e => e.2.boredom)).sum /
        ((initialGlobalRoom 0).users.length : ℚ)) ∧
      s.individuals.length = (initialGlobalRoom 0).users.length ∧
      ∀ i, i < (initialGlobalRoom 0).users.length →
        ∃ e ind, (initialGlobalRoom 0).users[i]? = some e ∧ s.individuals[i]? = some ind ∧
          ind.id = e.1 ∧ ind.boredom = jsRound e.2.boredom ∧ ind.isBot = e.2.isBot :=
  getRoomStats_nonempty (initialRooms 0) "global" (initialGlobalRoom 0)
    (by decide) (by decide)

/-- Witness for C2: a registry holding one freshly created empty room. -/
theorem getRoomStats_empty_witness :
    getRoomStats [("AB12CD",
      ({ users := [], createdAt := 7, name := "Room AB12CD", isGlobal := false } : Room))]
      "AB12CD" =
      some { average := 50, count := 0, individuals := [],
             roomName := "Room AB12CD", roomId := "AB12CD" } :=
  getRoomStats_empty
    [("AB12CD",
      ({ users := [], createdAt := 7, name := "Room AB12CD", isGlobal := false } : Room))]
    "AB12CD"
    ({ users := [], createdAt := 7, name := "Room AB12CD", isGlobal := false } : Room)
    (by decide) (by decide)

/-! ### Claim C3: accepted updates store an integer in [0,100] -/

/-- C3: for every accepted `update` message (numeric boredom field) from a
participant still present in the table, the value stored afterwards is an
integer in `[0,100]`, whatever the input's magnitude or sign. -/
theorem handleUpdate_clamps (room : Room) (userId : String) (b : ℚ) (u : Participant)
    (hu : lookupA room.users userId = some u) :
    ∃ u2, lookupA (handleMessage room userId (ClientMsg.update b)).users userId = some u2 ∧
      ∃ k : ℤ, u2.boredom = (k : ℚ) ∧ 0 ≤ k ∧ k ≤ 100 := by
  simp only [handleMessage, hu]
  exact ⟨{ u with boredom := ((max 0 (min 100 (jsRound b)) : ℤ) : ℚ) },
    lookupA_setA_self _ _ _, max 0 (min 100 (jsRound b)), rfl, le_max_left _ _,
    max_le (by norm_num) (min_le_left _ _)⟩

/-- Witness for C3: a huge negative update is stored as 0. -/
theorem handleUpdate_clamps_witness :
    ∃ u2, lookupA (handleMessage
        ({ users := [("u1", { boredom := 50, hasWs := true, isBot := false, name := none })],
           createdAt := 0, name := "Room AB12CD", isGlobal := false } : Room)
        "u1" (ClientMsg.update (-12345678))).users "u1" = some u2 ∧
      ∃ k : ℤ, u2.boredom = (k : ℚ) ∧ 0 ≤ k ∧ k ≤ 100 :=
  handleUpdate_clamps
    ({ users := [("u1", { boredom := 50, hasWs := true, isBot := false, name := none })],
       createdAt := 0, name := "Room AB12CD", isGlobal := false } : Room)
    "u1" (-12345678)
    ({ boredom := 50, hasWs := true, isBot := false, name := none } : Participant)
    (by decide)

/-! ### Claim C4: room resolution on join -/

/-- C4: joining with a non-empty requested identifier, in a registry where
the global room exists: a known identifier resolves to that room with the
registry untouched; an unknown well-formed 6-character uppercase
alphanumeric code creates a room with that identifier and the default name
and resolves to it; any other unknown identifier resolves to the global
room without creating anything; and in every case the resolved identifier
denotes a room present in the resulting registry. -/
theorem resolveRoomForJoin_spec (R : Registry) (id : String) (now : ℤ)
    (hg : hasA R GLOBAL_ROOM_ID = true) (hid : id ≠ "") :
    (hasA R id = true → resolveRoomForJoin R (some id) now = (R, id)) ∧
    (hasA R id = false → looksLikeRoomCode id = true →
      resolveRoomForJoin R (some id) now = (setA R id (freshJoinRoom id now), id) ∧
      lookupA (setA R id (freshJoinRoom id now)) id = some (freshJoinRoom id now)) ∧
    (hasA R id = false → looksLikeRoomCode id = false →
      resolveRoomForJoin R (some id) now = (R, GLOBAL_ROOM_ID)) ∧
    hasA (resolveRoomForJoin R (some id) now).1 (resolveRoomForJoin R (some id) now).2 = true := by
  have hred : resolveRoomForJoin R (some id) now =
      (if hasA R id then (R, id)
       else if looksLikeRoomCode id then (setA R id (freshJoinRoom id now), id)
       else (R, GLOBAL_ROOM_ID)) := by
    unfold resolveRoomForJoin
    simp [hid]
  refine ⟨?_, ?_, ?_, ?_⟩
  · intro h1
    rw [hred]
    simp [h1]
  · intro h1 h2
    rw [hred]
    refine ⟨?_, lookupA_setA_self _ _ _⟩
    simp [h1, h2]
  · intro h1 h2
    rw [hred]
    simp [h1, h2]
  · rw [hred]
    cases h1 : hasA R id with
    | true => simpa using h1
    | false =>
      cases h2 : looksLikeRoomCode id with
      | true =>
        simp only [Bool.false_eq_true, if_false, if_true]
        unfold hasA
        rw [lookupA_setA_self]
        rfl
      | false => simpa using hg

/-- Witness for C4 at the startup registry with the unknown well-formed
code "ABC123". -/
theorem resolveRoomForJoin_spec_witness :
    (hasA (initialRooms 0) "ABC123" = true →
      resolveRoomForJoin (initialRooms 0) (some "ABC123") 5 = (initialRooms 0, "ABC123")) ∧
    (hasA (initialRooms 0) "ABC123" = false → looksLikeRoomCode "ABC123" = true →
      resolveRoomForJoin (initialRooms 0) (some "ABC123") 5 =
        (setA (initialRooms 0) "ABC123" (freshJoinRoom "ABC123" 5), "ABC123") ∧
      lookupA (setA (initialRooms 0) "ABC123" (freshJoinRoom "ABC123" 5)) "ABC123" =
        some (freshJoinRoom "ABC123" 5)) ∧
    (hasA (initialRooms 0) "ABC123" = false → looksLikeRoomCode "ABC123" = false →
      resolveRoomForJoin (initialRooms 0) (some "ABC123") 5 = (initialRooms 0, GLOBAL_ROOM_ID)) ∧
    hasA (resolveRoomForJoin (initialRooms 0) (some "ABC123") 5).1
      (resolveRoomForJoin (initialRooms 0) (some "ABC123") 5).2 = true :=
  resolveRoomForJoin_spec (initialRooms 0) "ABC123" 5 (by decide) (by decide)

/-! ### Claim C5: the expiry sweep -/

theorem lookupA_eq_none_of_not_mem_keys {α : Type} (m : List (String × α)) (k : String)
    (h : k ∉ m.map Prod.fst) : lookupA m k = none := by
  induction m with
  | nil => rfl
  | cons hd tl ih =>
    obtain ⟨k1, v1⟩ := hd
    simp only [List.map_cons, List.mem_cons] at h
    push_neg at h
    simp only [lookupA]
    rw [if_neg (fun he => h.1 he.symm)]
    exact ih h.2

theorem lookupA_filter_none {α : Type} (m : List (String × α)) (p : String × α → Bool)
    (k : String) (h : lookupA m k = none) : lookupA (m.filter p) k = none := by
  induction m with
  | nil => rfl
  | cons hd tl ih =>
    obtain ⟨k1, v1⟩ := hd
    by_cases hk : k1 = k
    · simp [lookupA, hk] at h
    · simp only [lookupA, hk, if_false] at h
      cases hp : p (k1, v1) with
      | true => simp only [List.filter_cons_of_pos hp, lookupA, hk, if_false]; exact ih h
      | false => rw [List.filter_cons_of_neg (by simp [hp])]; exact ih h

theorem lookupA_filter_of_mem {α : Type} (m : List (String × α)) (p : String × α → Bool)
    (k : String) (a : α) (hnd : (m.map Prod.fst).Nodup) (hmem : (k, a) ∈ m) :
    lookupA (m.filter p) k = if p (k, a) then some a else none := by
  induction m with
  | nil => simp at hmem
  | cons hd tl ih =>
    obtain ⟨k1, v1⟩ := hd
    simp only [List.map_cons, List.nodup_cons] at hnd
    rcases List.mem_cons.mp hmem with heq | htl
    · have hk : k = k1 := congrArg Prod.fst heq
      have ha : a = v1 := congrArg Prod.snd heq
      subst hk
      subst ha
      cases hp : p (k, a) with
      | true =>
        simp only [List.filter_cons_of_pos hp, lookupA, if_pos rfl, hp, if_true]
      | false =>
        rw [List.filter_cons_of_neg (by simp [hp])]
        simp only [hp, Bool.false_eq_true, if_false]
        apply lookupA_filter_none
        exact lookupA_eq_none_of_not_mem_keys tl k hnd.1
    · have hk1 : k1 ≠ k := by
        intro he
        exact hnd.1 (he ▸ (List.mem_map.mpr ⟨(k, a), htl, rfl⟩))
      cases hp : p (k1, v1) with
      | true =>
        simp only [List.filter_cons_of_pos hp, lookupA, hk1, if_false]
        exact ih hnd.2 htl
      | false =>
        rw [List.filter_cons_of_neg (by simp [hp])]
        exact ih hnd.2 htl

/-- C5: after one sweep at time `now`, every non-global room with zero live
participants and age strictly over one hour is absent from the registry,
and every other room (the global room included, whatever its age or
participant count) is still present, unchanged. -/
theorem sweepRooms_spec (R : Registry) (now : ℤ) (id : String) (room : Room)
    (hnd : (R.map Prod.fst).Nodup) (hmem : (id, room) ∈ R) :
    (id ≠ GLOBAL_ROOM_ID → (liveUsers room).length = 0 → now - room.createdAt > 3600000 →
      lookupA (sweepRooms R now) id = none) ∧
    (id = GLOBAL_ROOM_ID ∨ (liveUsers room).length ≠ 0 ∨ ¬(now - room.createdAt > 3600000) →
      lookupA (sweepRooms R now) id = some room) := by
  have hf := lookupA_filter_of_mem R (keepRoom now) id room hnd hmem
  constructor
  · intro h1 h2 h3
    rw [sweepRooms, hf]
    have : keepRoom now (id, room) = false := by
      simp [keepRoom, h1, h2, h3]
    simp [this]
  · intro h1
    rw [sweepRooms, hf]
    have : keepRoom now (id, room) = true := by
      rcases h1 with h | h | h
      · simp [keepRoom, h]
      · simp [keepRoom, h]
      · simp [keepRoom, h]
    simp [this]

/-- Witness for C5: a registry with the (ancient, bot-only) global room and
one hour-old empty room; at `now = 4000000` the empty room is evicted and
the global room survives. -/
theorem sweepRooms_spec_witness :
    (("AB12CD" ≠ GLOBAL_ROOM_ID → (liveUsers (freshJoinRoom "AB12CD" 0)).length = 0 →
      (4000000 : ℤ) - (freshJoinRoom "AB12CD" 0).createdAt > 3600000 →
      lookupA (sweepRooms (initialRooms 0 ++ [("AB12CD", freshJoinRoom "AB12CD" 0)]) 4000000)
        "AB12CD" = none) ∧
    ("AB12CD" = GLOBAL_ROOM_ID ∨ (liveUsers (freshJoinRoom "AB12CD" 0)).length ≠ 0 ∨
      ¬((4000000 : ℤ) - (freshJoinRoom "AB12CD" 0).createdAt > 3600000) →
      lookupA (sweepRooms (initialRooms 0 ++ [("AB12CD", freshJoinRoom "AB12CD" 0)]) 4000000)
        "AB12CD" = some (freshJoinRoom "AB12CD" 0))) ∧
    lookupA (sweepRooms (initialRooms 0 ++ [("AB12CD", freshJoinRoom "AB12CD" 0)]) 4000000)
      GLOBAL_ROOM_ID = some (initialGlobalRoom 0) :=
  ⟨sweepRooms_spec (initialRooms 0 ++ [("AB12CD", freshJoinRoom "AB12CD" 0)]) 4000000
      "AB12CD" (freshJoinRoom "AB12CD" 0) (by decide) (by decide),
   (sweepRooms_spec (initialRooms 0 ++ [("AB12CD", freshJoinRoom "AB12CD" 0)]) 4000000
      GLOBAL_ROOM_ID (initialGlobalRoom 0) (by decide) (by decide)).2 (Or.inl rfl)⟩

/-! ### Claim C6: one bot simulation tick -/

/-- C6: when the global room and the bot's entry both exist, a tick with
random draw `r ∈ [0,1)` stores exactly
`clamp(current + (target - current) * 0.1 + (r - 0.5) * volatility, 0, 100)`
(no rounding), a value always in `[0,100]`; when either is missing the tick
changes nothing. -/
theorem botTick_spec (R : Registry) (bot : BotProfile) (r : ℚ)
    (hr0 : 0 ≤ r) (hr1 : r < 1) :
    (∀ room user, lookupA R GLOBAL_ROOM_ID = some room →
      lookupA room.users bot.id = some user →
      ∃ room2 user2,
        lookupA (botTick R bot r) GLOBAL_ROOM_ID = some room2 ∧
        lookupA room2.users bot.id = some user2 ∧
        user2.boredom = max 0 (min 100
          (user.boredom + (bot.boredom - user.boredom) * (1 / 10) +
            (r - 1 / 2) * bot.volatility)) ∧
        0 ≤ user2.boredom ∧ user2.boredom ≤ 100) ∧
    (lookupA R GLOBAL_ROOM_ID = none → botTick R bot r = R) ∧
    (∀ room, lookupA R GLOBAL_ROOM_ID = some room →
      lookupA room.users bot.id = none → botTick R bot r = R) := by
  refine ⟨?_, ?_, ?_⟩
  · intro room user h1 h2
    simp only [botTick, h1, h2]
    refine ⟨_, _, lookupA_setA_self _ _ _, lookupA_setA_self _ _ _, rfl, ?_, ?_⟩
    · exact le_max_left _ _
    · exact max_le (by norm_num) (min_le_left _ _)
  · intro h1
    simp only [botTick, h1]
  · intro room h1 h2
    simp only [botTick, h1, h2]

/-- Witness for C6: the restless bot's first tick from the startup
registry with a median random draw keeps it at 65. -/
theorem botTick_spec_witness :
    (∀ room user, lookupA (initialRooms 0) GLOBAL_ROOM_ID = some room →
      lookupA room.users "bot-restless" = some user →
      ∃ room2 user2,
        lookupA (botTick (initialRooms 0)
          ({ id := "bot-restless", name := "Restless Rita", boredom := 65,
             volatility := 15, speed := 3000 } : BotProfile) (1 / 2)) GLOBAL_ROOM_ID = some room2 ∧
        lookupA room2.users "bot-restless" = some user2 ∧
        user2.boredom = max 0 (min 100
          (user.boredom + ((65 : ℚ) - user.boredom) * (1 / 10) +
            ((1 / 2 : ℚ) - 1 / 2) * 15)) ∧
        0 ≤ user2.boredom ∧ user2.boredom ≤ 100) ∧
    (lookupA (initialRooms 0) GLOBAL_ROOM_ID = none →
      botTick (initialRooms 0)
        ({ id := "bot-restless", name := "Restless Rita", boredom := 65,
           volatility := 15, speed := 3000 } : BotProfile) (1 / 2) = initialRooms 0) ∧
    (∀ room, lookupA (initialRooms 0) GLOBAL_ROOM_ID = some room →
      lookupA room.users "bot-restless" = none →
      botTick (initialRooms 0)
        ({ id := "bot-restless", name := "Restless Rita", boredom := 65,
           volatility := 15, speed := 3000 } : BotProfile) (1 / 2) = initialRooms 0) :=
  botTick_spec (initialRooms 0)
    ({ id := "bot-restless", name := "Restless Rita", boredom := 65,
       volatility := 15, speed := 3000 } : BotProfile) (1 / 2)
    (by norm_num) (by norm_num)

/-! ### Claim C7: the /health endpoint

The claim as stated is false on the code: `globalUsers` is `stats.count`
for the global room, which counts every participant entry, bots included —
not only the live (connection-backed) ones.  At startup the global room
holds the four bots and no live user, and `/health` reports
`globalUsers = 4` while the live participant count is `0`. -/

/-- Counterexample to C7 as stated: at the startup registry, `/health`
reports `globalUsers = 4`, but the global room's live (connection-backed)
participant count is `0`. -/
theorem health_globalUsers_counterexample :
    (healthHandler (initialRooms 0)).2.globalUsers = 4 ∧
    (liveUsers (initialGlobalRoom 0)).length = 0 ∧
    (healthHandler (initialRooms 0)).2.globalUsers ≠ (liveUsers (initialGlobalRoom 0)).length := by
  decide

/-- C7 amended: for every `GET /health` request in a registry where the
global room exists, the response is 200 with status "ok", `rooms` equal to
the registry's total room count and `globalUsers` equal to the global
room's total participant count (live and automated together). -/
theorem health_spec (R : Registry) (g : Room) (hg : lookupA R GLOBAL_ROOM_ID = some g) :
    healthHandler R =
      (200, { status := "ok", rooms := R.length, globalUsers := g.users.length }) := by
  simp only [healthHandler, getRoomStats, hg]
  by_cases hz : g.users.length = 0
  · simp [hz]
  · simp [hz]

/-- Witness for the amended C7 at the startup registry: one room, four
participants in the global room. -/
theorem health_spec_witness :
    healthHandler (initialRooms 0) =
      (200, { status := "ok", rooms := (initialRooms 0).length,
              globalUsers := (initialGlobalRoom 0).users.length }) :=
  health_spec (initialRooms 0) (initialGlobalRoom 0) (by decide)

/-! ### Claim C8: POST /api/rooms success and failure paths -/

/-- C8: with a fresh generated code, a parsable body yields a 200 response
carrying the identifier and resolved name, and stores exactly one new room
with an empty participant table (every other entry untouched); an
unparsable body yields a 400 error response and leaves the registry
unchanged. -/
theorem createRoom_spec (R : Registry) (code : String) (now : ℤ) (nm : Option String)
    (hfresh : hasA R code = false) :
    (∃ R2 name,
      handleCreateRoom R false (BodyParse.obj nm) code now =
        (R2, 200, ApiResponse.created code name) ∧
      lookupA R2 code = some { users := [], createdAt := now, name := name, isGlobal := false } ∧
      R2.length = R.length + 1 ∧
      ∀ k, k ≠ code → lookupA R2 k = lookupA R k) ∧
    handleCreateRoom R false BodyParse.fail code now =
      (R, 400, ApiResponse.invalid "Invalid request") := by
  constructor
  · refine ⟨_, _, rfl, lookupA_setA_self _ _ _, length_setA_of_fresh _ _ _ hfresh, ?_⟩
    intro k hk
    exact lookupA_setA_ne _ _ _ _ hk
  · rfl

/-- Witness for C8 at the startup registry with code "AB12CD" and a named
body. -/
theorem createRoom_spec_witness :
    (∃ R2 name,
      handleCreateRoom (initialRooms 0) false (BodyParse.obj (some "Team Sync")) "AB12CD" 9 =
        (R2, 200, ApiResponse.created "AB12CD" name) ∧
      lookupA R2 "AB12CD" =
        some { users := [], createdAt := 9, name := name, isGlobal := false } ∧
      R2.length = (initialRooms 0).length + 1 ∧
      ∀ k, k ≠ "AB12CD" → lookupA R2 k = lookupA (initialRooms 0) k) ∧
    handleCreateRoom (initialRooms 0) false BodyParse.fail "AB12CD" 9 =
      (initialRooms 0, 400, ApiResponse.invalid "Invalid request") :=
  createRoom_spec (initialRooms 0) "AB12CD" 9 (some "Team Sync") (by decide)

/-! ### Claim C9: no collision check on room creation -/

/-- C9: when the freshly generated code already names a room in the
registry, the creation request still succeeds with 200 and the existing
room — participant table included — is replaced by the new empty room; the
registry's size does not change. -/
theorem createRoom_collision (R : Registry) (code : String) (now : ℤ) (nm : Option String)
    (old : Room) (hold : lookupA R code = some old) :
    ∃ R2 name,
      handleCreateRoom R false (BodyParse.obj nm) code now =
        (R2, 200, ApiResponse.created code name) ∧
      lookupA R2 code = some { users := [], createdAt := now, name := name, isGlobal := false } ∧
      R2.length = R.length := by
  have hhas : hasA R code = true := by unfold hasA; rw [hold]; rfl
  exact ⟨_, _, rfl, lookupA_setA_self _ _ _, length_setA_of_hasA _ _ _ hhas⟩

/-- Witness for C9: a registry whose room "AB12CD" has a live participant
is overwritten by a colliding creation. -/
theorem createRoom_collision_witness :
    ∃ R2 name,
      handleCreateRoom
        [("AB12CD",
          ({ users := [("u1", { boredom := 80, hasWs := true, isBot := false, name := none })],
             createdAt := 0, name := "Old room", isGlobal := false } : Room))]
        false (BodyParse.obj none) "AB12CD" 9 = (R2, 200, ApiResponse.created "AB12CD" name) ∧
      lookupA R2 "AB12CD" =
        some { users := [], createdAt := 9, name := name, isGlobal := false } ∧
      R2.length =
        [("AB12CD",
          ({ users := [("u1", { boredom := 80, hasWs := true, isBot := false, name := none })],
             createdAt := 0, name := "Old room", isGlobal := false } : Room))].length :=
  createRoom_collision
    [("AB12CD",
      ({ users := [("u1", { boredom := 80, hasWs := true, isBot := false, name := none })],
         createdAt := 0, name := "Old room", isGlobal := false } : Room))]
    "AB12CD" 9 none
    ({ users := [("u1", { boredom := 80, hasWs := true, isBot := false, name := none })],
       createdAt := 0, name := "Old room", isGlobal := false } : Room)
    (by decide)

/-! ### Claim C10: empty body and blank/absent name default -/

/-- C10: an entirely empty request body is not a parse failure — whatever
the parse outcome of the (never consulted) body, the response is 200 and
the created room carries the default name "Room " followed by the code;
likewise a blank (empty-string) or absent `name` field yields the default
name. -/
theorem createRoom_emptyBody (R : Registry) (code : String) (now : ℤ) (bp : BodyParse) :
    ∃ R2 R3 R4,
      handleCreateRoom R true bp code now =
        (R2, 200, ApiResponse.created code ("Room " ++ code)) ∧
      lookupA R2 code =
        some { users := [], createdAt := now, name := "Room " ++ code, isGlobal := false } ∧
      handleCreateRoom R false (BodyParse.obj (some "")) code now =
        (R3, 200, ApiResponse.created code ("Room " ++ code)) ∧
      handleCreateRoom R false (BodyParse.obj none) code now =
        (R4, 200, ApiResponse.created code ("Room " ++ code)) := by
  refine ⟨setA R code { users := [], createdAt := now, name := "Room " ++ code, isGlobal := false },
    setA R code { users := [], createdAt := now, name := "Room " ++ code, isGlobal := false },
    setA R code { users := [], createdAt := now, name := "Room " ++ code, isGlobal := false },
    rfl, lookupA_setA_self _ _ _, ?_, rfl⟩
  simp [handleCreateRoom]

end Server
